import Mathlib

/-!
Verification of the orchestration logic of `src/src/App.jsx`
(Stock-Report-Analysis single-page client).

The file embeds the controller logic of the React component
`StockAnalysisApp` as pure Lean functions: the admission gate of the two
submission paths, the `analyzeStock` request driver (network calls issued
and resulting error/analysis state), the `checkRateLimit` probe handler,
the one-second countdown interval, the recommendation style function, the
strength-tier label and the conditional guidance blocks.

A note on string literals: the checked-in source file is mojibake — its
emoji were decoded as MacRoman and re-encoded as UTF-8 — so literals such
as the tier labels are copied here character-for-character from the file
as it exists on disk (e.g. the fire emoji appears as U+F8FF followed by
"üî•").
-/

namespace StockApp

/-- Payload fields of a successful /analyze response that the component's
logic reads: `consensus_recommendation` (a label such as BUY/SELL/HOLD)
and `consensus_confidence` (an integer score 0-100). All other payload
fields are presentation-only and never branch the logic. -/
structure AnalysisPayload where
  consensus_recommendation : String
  consensus_confidence : Nat
deriving DecidableEq, Repr

/-- Strength-tier label shown in the recommendation pill, App.jsx lines
263-266: a nested conditional on `consensus_confidence`. -/
def tierLabel (c : Nat) : String :=
  if c ≥ 75 then "üî• STRONG"
  else if c ≥ 60 then "‚úÖ MODERATE-STRONG"
  else if c ≥ 45 then "‚ö†Ô∏è MODERATE"
  else if c ≥ 30 then "‚ö†Ô∏è WEAK"
  else "‚ùå STRONG CAUTION"

/-- C1: for every confidence value in [0,100] the tier label is exactly the
one given by the table of spec section 4.4 — STRONG on [75,100],
MODERATE-STRONG on [60,75), MODERATE on [45,60), WEAK on [30,45),
STRONG-CAUTION on [0,30) — so each boundary 30/45/60/75 belongs to the
higher tier, and exactly one tier applies. -/
theorem tier_table (c : Nat) (h : c < 101) :
    (tierLabel c = "üî• STRONG" ↔ 75 ≤ c) ∧
    (tierLabel c = "‚úÖ MODERATE-STRONG" ↔ 60 ≤ c ∧ c < 75) ∧
    (tierLabel c = "‚ö†Ô∏è MODERATE" ↔ 45 ≤ c ∧ c < 60) ∧
    (tierLabel c = "‚ö†Ô∏è WEAK" ↔ 30 ≤ c ∧ c < 45) ∧
    (tierLabel c = "‚ùå STRONG CAUTION" ↔ c < 30) := by
  revert h
  revert c
  decide

/-- Witness for tier_table at the boundary c = 75. -/
theorem tier_table_witness :
    75 < 101 ∧
    ((tierLabel 75 = "üî• STRONG" ↔ 75 ≤ 75) ∧
    (tierLabel 75 = "‚úÖ MODERATE-STRONG" ↔ 60 ≤ 75 ∧ 75 < 75) ∧
    (tierLabel 75 = "‚ö†Ô∏è MODERATE" ↔ 45 ≤ 75 ∧ 75 < 60) ∧
    (tierLabel 75 = "‚ö†Ô∏è WEAK" ↔ 30 ≤ 75 ∧ 75 < 45) ∧
    (tierLabel 75 = "‚ùå STRONG CAUTION" ↔ 75 < 30)) :=
  ⟨by decide, tier_table 75 (by decide)⟩

/-- Style record returned by getRecommendationStyle (App.jsx lines
109-116); `icon` is the name of the icon component chosen. -/
structure RecStyle where
  color : String
  bg : String
  icon : String
deriving DecidableEq, Repr

/-- getRecommendationStyle (App.jsx lines 109-116): BUY and HOLD share the
green style, SELL gets the red style, and any other label falls through to
the yellow style. -/
def getRecommendationStyle (rec : String) : RecStyle :=
  if rec = "BUY" ∨ rec = "HOLD" then
    ⟨"text-green-400", "bg-green-500/20", "ThumbsUp"⟩
  else if rec = "SELL" then
    ⟨"text-red-400", "bg-red-500/20", "ThumbsDown"⟩
  else
    ⟨"text-yellow-400", "bg-yellow-500/20", "Info"⟩

/-- C5 counterexample: the label "N/A" — neither BUY/HOLD nor SELL — gets
the yellow style, distinct from both the positive (green) style of BUY and
the negative (red) style of SELL, so the visual classification is not
binary. -/
theorem style_not_binary :
    getRecommendationStyle "N/A" =
      ⟨"text-yellow-400", "bg-yellow-500/20", "Info"⟩ ∧
    getRecommendationStyle "N/A" ≠ getRecommendationStyle "BUY" ∧
    getRecommendationStyle "N/A" ≠ getRecommendationStyle "SELL" := by
  decide

/-- C5 amended: the style is a function of the label alone and ternary —
BUY and HOLD get the positive green style, SELL the negative red style,
and every label other than these three the neutral yellow style —
independently of the numeric confidence tier. -/
theorem style_ternary (rec : String)
    (hb : rec ≠ "BUY") (hh : rec ≠ "HOLD") (hs : rec ≠ "SELL") :
    getRecommendationStyle "BUY" =
      ⟨"text-green-400", "bg-green-500/20", "ThumbsUp"⟩ ∧
    getRecommendationStyle "HOLD" =
      ⟨"text-green-400", "bg-green-500/20", "ThumbsUp"⟩ ∧
    getRecommendationStyle "SELL" =
      ⟨"text-red-400", "bg-red-500/20", "ThumbsDown"⟩ ∧
    getRecommendationStyle rec =
      ⟨"text-yellow-400", "bg-yellow-500/20", "Info"⟩ := by
  refine ⟨by decide, by decide, by decide, ?_⟩
  simp [getRecommendationStyle, hb, hh, hs]

/-- Witness for style_ternary at the label "MIXED". -/
theorem style_ternary_witness :
    ("MIXED" : String) ≠ "BUY" ∧ ("MIXED" : String) ≠ "HOLD" ∧
    ("MIXED" : String) ≠ "SELL" ∧
    (getRecommendationStyle "BUY" =
      ⟨"text-green-400", "bg-green-500/20", "ThumbsUp"⟩ ∧
    getRecommendationStyle "HOLD" =
      ⟨"text-green-400", "bg-green-500/20", "ThumbsUp"⟩ ∧
    getRecommendationStyle "SELL" =
      ⟨"text-red-400", "bg-red-500/20", "ThumbsDown"⟩ ∧
    getRecommendationStyle "MIXED" =
      ⟨"text-yellow-400", "bg-yellow-500/20", "Info"⟩) :=
  ⟨by decide, by decide, by decide,
    style_ternary "MIXED" (by decide) (by decide) (by decide)⟩

/-- Headline line of each of the five conditional guidance blocks
(App.jsx lines 306-347). Each block renders its lines exactly when its
guard holds, so the concatenation below is empty iff no guidance block is
shown at all. -/
def guidanceHeads (c : Nat) (rec : String) : List String :=
  (if c ≥ 75 ∧ rec = "BUY"
    then ["üöÄ STRONG BUY - Excellent opportunity!"] else []) ++
  (if c ≥ 60 ∧ c < 75 then ["‚úÖ STRONG HOLD - Keep the stock"] else []) ++
  (if c ≥ 45 ∧ c < 60
    then ["‚ö†Ô∏è MODERATE HOLD - Decide carefully"] else []) ++
  (if c ≥ 30 ∧ c < 45
    then ["‚ö†Ô∏è CONSIDER SELLING - Think about exit"] else []) ++
  (if c < 30 then ["‚ùå STRONG SELL - Exit quickly"] else [])

/-- C10: a result with confidence at least 75 and a recommendation other
than BUY gets the STRONG tier label, yet no guidance block applies: the
guidance list is empty. -/
theorem strong_nonbuy_no_guidance (c : Nat) (rec : String)
    (h1 : 75 ≤ c) (h2 : rec ≠ "BUY") :
    tierLabel c = "üî• STRONG" ∧ guidanceHeads c rec = [] := by
  constructor
  · simp [tierLabel, h1]
  · have g1 : ¬(c ≥ 75 ∧ rec = "BUY") := fun hc => h2 hc.2
    have g2 : ¬(c ≥ 60 ∧ c < 75) := by omega
    have g3 : ¬(c ≥ 45 ∧ c < 60) := by omega
    have g4 : ¬(c ≥ 30 ∧ c < 45) := by omega
    have g5 : ¬(c < 30) := by omega
    simp [guidanceHeads, g1, g2, g3, g4, g5]

/-- Witness for strong_nonbuy_no_guidance at confidence 80 with label SELL. -/
theorem strong_nonbuy_no_guidance_witness :
    75 ≤ 80 ∧ ("SELL" : String) ≠ "BUY" ∧
    (tierLabel 80 = "üî• STRONG" ∧ guidanceHeads 80 "SELL" = []) :=
  ⟨by decide, by decide, strong_nonbuy_no_guidance 80 "SELL" (by decide) (by decide)⟩

/-- Boolean prefix test on character lists, the base of the substring
test below. -/
def charsAreStart : List Char → List Char → Bool
  | [], _ => true
  | _ :: _, [] => false
  | a :: as, b :: bs => a == b && charsAreStart as bs

/-- Boolean substring occurrence on character lists. -/
def charsOccur : List Char → List Char → Bool
  | sub, [] => charsAreStart sub []
  | sub, b :: bs => charsAreStart sub (b :: bs) || charsOccur sub bs

/-- JS String.prototype.includes, as used by the catch block of
analyzeStock: does `sub` occur in `s`. -/
def strIncludes (s sub : String) : Bool := charsOccur sub.toList s.toList

/-- Message mapping of the catch block of analyzeStock (App.jsx lines
88-97): transport failures are recognised by "Failed to fetch" in the
thrown message, a missing upstream credential by "API key", and every
other message is prefixed with a generic label. -/
def catchMessage (msg : String) : String :=
  if strIncludes msg "Failed to fetch" then
    "‚ö†Ô∏è Cannot connect to backend server. Is backend running?"
  else if strIncludes msg "API key" then
    "‚ö†Ô∏è API key not configured."
  else
    "Analysis error occurred. " ++ msg

/-- JS String.prototype.trim, modelled on the character list: drop
leading and trailing whitespace. -/
def strTrim (s : String) : String :=
  ⟨((s.toList.dropWhile Char.isWhitespace).reverse.dropWhile
      Char.isWhitespace).reverse⟩

/-- JS `errorData.detail || 'Analysis failed'` (App.jsx line 83): an
absent or empty (falsy) detail falls back to the generic label. -/
def detailOrDefault : Option String → String
  | none => "Analysis failed"
  | some d => if d = "" then "Analysis failed" else d

/-- Network calls analyzeStock can issue, in order of issue. -/
inductive NetCall
  | analyze (stock_name : String)
  | rateLimitProbe
deriving DecidableEq, Repr

/-- Observable outcome of the single /analyze fetch inside analyzeStock:
`ok` is a 2xx response with a parsed JSON payload; `httpError` is a
non-ok response whose JSON body parsed (carrying the optional `detail`
field); `thrown` is a rejected fetch or a body that failed to parse as
JSON, both of which reach the catch block with the thrown message. -/
inductive AnalyzeFetch
  | ok (payload : AnalysisPayload)
  | httpError (status : Nat) (detail : Option String)
  | thrown (message : String)
deriving DecidableEq, Repr

/-- Final state of one analyzeStock run: the network calls issued in
order, whether setLoading(true) was reached, the final loading flag, the
final error string, and the final analysis value (given the analysis
value held before the call, which the early-return path leaves in
place). -/
structure SubmitOutcome where
  calls : List NetCall
  enteredLoading : Bool
  finalLoading : Bool
  error : String
  analysis : Option AnalysisPayload
deriving DecidableEq, Repr

/-- analyzeStock (App.jsx lines 63-101) as a function of the raw input
string, the outcome of the single fetch, and the analysis value held
before submission. The empty-after-trim guard returns before setLoading
and before any fetch; otherwise exactly one /analyze call is issued
carrying the raw `stockName` in its body, a non-ok response with status
429 additionally awaits one checkRateLimit probe before throwing, and the
catch block maps the thrown message through catchMessage. -/
def analyzeStock (stockName : String) (fetch : AnalyzeFetch)
    (analysis0 : Option AnalysisPayload) : SubmitOutcome :=
  if strTrim stockName = "" then
    ⟨[], false, false, "Please enter a stock name", analysis0⟩
  else
    match fetch with
    | .ok payload => ⟨[.analyze stockName], true, false, "", some payload⟩
    | .httpError status detail =>
      ⟨if status = 429 then [.analyze stockName, .rateLimitProbe]
        else [.analyze stockName],
       true, false, catchMessage (detailOrDefault detail), none⟩
    | .thrown message =>
      ⟨[.analyze stockName], true, false, catchMessage message, none⟩

/-- C8: an input that is empty after trimming issues no network call,
never reaches the Pending (loading) state, and immediately yields the
empty-input failure message, leaving the held analysis untouched. -/
theorem empty_input_no_network (s : String) (f : AnalyzeFetch)
    (a0 : Option AnalysisPayload) (h : strTrim s = "") :
    analyzeStock s f a0 =
      ⟨[], false, false, "Please enter a stock name", a0⟩ := by
  simp [analyzeStock, h]

/-- Witness for empty_input_no_network on the whitespace-only input. -/
theorem empty_input_no_network_witness :
    strTrim "   " = "" ∧
    analyzeStock "   " (.ok ⟨"BUY", 80⟩) none =
      ⟨[], false, false, "Please enter a stock name", none⟩ :=
  ⟨by decide, empty_input_no_network "   " (.ok ⟨"BUY", 80⟩) none (by decide)⟩

/-- C4 counterexample: submitting " TCS " sends the raw, untrimmed input
as stock_name — the body carries " TCS ", not the trimmed "TCS". -/
theorem analyze_body_untrimmed :
    (analyzeStock " TCS " (.ok ⟨"BUY", 80⟩) none).calls =
      [.analyze " TCS "] ∧
    strTrim " TCS " = "TCS" ∧
    NetCall.analyze " TCS " ≠ NetCall.analyze "TCS" := by
  decide

/-- C4 amended: every submission that is non-empty after trimming issues
exactly one /analyze request, and its body carries the raw input string
(trimming is applied only in the emptiness guard, not to the value
sent). -/
theorem analyze_body_raw (s : String) (f : AnalyzeFetch)
    (a0 : Option AnalysisPayload) (h : strTrim s ≠ "") :
    (analyzeStock s f a0).calls.head? = some (.analyze s) ∧
    (analyzeStock s f a0).calls.filter
      (fun c => match c with | .analyze _ => true | .rateLimitProbe => false)
      = [.analyze s] := by
  cases f with
  | ok payload => simp [analyzeStock, h]
  | httpError status detail =>
    simp only [analyzeStock, h, if_neg, ite_false]
    split <;> simp [List.filter]
  | thrown message => simp [analyzeStock, h]

/-- Witness for analyze_body_raw on the input " TCS " with a 429 reply. -/
theorem analyze_body_raw_witness :
    strTrim " TCS " ≠ "" ∧
    ((analyzeStock " TCS " (.httpError 429 (some "slow down")) none).calls.head?
        = some (.analyze " TCS ") ∧
    (analyzeStock " TCS " (.httpError 429 (some "slow down")) none).calls.filter
      (fun c => match c with | .analyze _ => true | .rateLimitProbe => false)
      = [.analyze " TCS "]) :=
  ⟨by decide, analyze_body_raw " TCS " (.httpError 429 (some "slow down")) none (by decide)⟩

/-- C3 counterexample: a 429 whose detail mentions "API key" still issues
exactly one /rate-limit probe, but the stored failure message is the
remapped credential advisory, which does not carry the server-provided
detail at all. -/
theorem rate_limited_detail_remapped :
    (analyzeStock "TCS" (.httpError 429 (some "Invalid API key")) none).calls =
      [.analyze "TCS", .rateLimitProbe] ∧
    (analyzeStock "TCS" (.httpError 429 (some "Invalid API key")) none).error =
      "‚ö†Ô∏è API key not configured." ∧
    strIncludes "‚ö†Ô∏è API key not configured." "Invalid API key" = false := by
  decide

/-- C3 amended: a 429 response whose body parsed as JSON always triggers
exactly one /rate-limit probe; when the detail is non-empty and contains
neither "Failed to fetch" nor "API key" (the catch block's content
detections), the failure message is the generic prefix followed by the
server-provided detail. -/
theorem rate_limited_probe_and_detail (s d : String)
    (a0 : Option AnalysisPayload) (h1 : strTrim s ≠ "") (h2 : d ≠ "")
    (h3 : strIncludes d "Failed to fetch" = false)
    (h4 : strIncludes d "API key" = false) :
    (analyzeStock s (.httpError 429 (some d)) a0).calls =
      [.analyze s, .rateLimitProbe] ∧
    (analyzeStock s (.httpError 429 (some d)) a0).error =
      "Analysis error occurred. " ++ d := by
  simp [analyzeStock, h1, catchMessage, detailOrDefault, h2, h3, h4]

/-- Witness for rate_limited_probe_and_detail at a plain 429 detail. -/
theorem rate_limited_probe_and_detail_witness :
    strTrim "TCS" ≠ "" ∧ ("Too many requests" : String) ≠ "" ∧
    strIncludes "Too many requests" "Failed to fetch" = false ∧
    strIncludes "Too many requests" "API key" = false ∧
    ((analyzeStock "TCS" (.httpError 429 (some "Too many requests")) none).calls =
      [.analyze "TCS", .rateLimitProbe] ∧
    (analyzeStock "TCS" (.httpError 429 (some "Too many requests")) none).error =
      "Analysis error occurred. " ++ "Too many requests") :=
  ⟨by decide, by decide, by decide, by decide,
    rate_limited_probe_and_detail "TCS" "Too many requests" none
      (by decide) (by decide) (by decide) (by decide)⟩

/-- Shape of the backendStatus state value (set by checkBackendHealth,
App.jsx lines 35-43); only the `status` field is read by the admission
gate. The state starts as null, modelled by Option. -/
structure BackendStatus where
  status : String
deriving DecidableEq, Repr

/-- Shape of the rateLimit state value, the parsed /rate-limit body
(App.jsx lines 45-58). The state starts as null, modelled by Option. -/
structure RateLimitData where
  is_limited : Bool
  message : Option String
  seconds_remaining : Option Nat
deriving DecidableEq, Repr

/-- JS `backendStatus?.status === 'healthy'` with optional chaining: a
null backendStatus yields undefined, which is not 'healthy'. -/
def statusHealthy : Option BackendStatus → Bool
  | none => false
  | some b => b.status == "healthy"

/-- JS `rateLimit?.is_limited` coerced to boolean: a null rateLimit
yields undefined, which is falsy. -/
def limitedFlag : Option RateLimitData → Bool
  | none => false
  | some r => r.is_limited

/-- Disabled-attribute of the Analyze button (App.jsx line 192):
`loading || backendStatus?.status !== 'healthy' || rateLimit?.is_limited`. -/
def analyzeButtonDisabled (loading : Bool) (backendStatus : Option BackendStatus)
    (rateLimit : Option RateLimitData) : Bool :=
  loading || !(statusHealthy backendStatus) || limitedFlag rateLimit

/-- Guard of handleKeyPress (App.jsx lines 103-107): analyzeStock is
called only when the key is Enter, not loading, the backend is healthy
and the rate limit is not active. -/
def enterKeySubmits (key : String) (loading : Bool)
    (backendStatus : Option BackendStatus)
    (rateLimit : Option RateLimitData) : Bool :=
  key == "Enter" && !loading && statusHealthy backendStatus
    && !(limitedFlag rateLimit)

/-- C2: whenever the backend is not healthy, or the rate limit is active,
or a submission is already pending (loading), both submission paths are
disallowed — the Analyze button is disabled and the Enter-key guard
refuses to call analyzeStock — so no second analysis call can be issued
while one is outstanding. -/
theorem submission_gate (key : String) (loading : Bool)
    (bs : Option BackendStatus) (rl : Option RateLimitData)
    (h : loading = true ∨ statusHealthy bs = false ∨ limitedFlag rl = true) :
    analyzeButtonDisabled loading bs rl = true ∧
    enterKeySubmits key loading bs rl = false := by
  rcases h with h | h | h <;>
    simp [analyzeButtonDisabled, enterKeySubmits, h]

/-- Witness for submission_gate: a pending submission (loading) with a
healthy backend and a clear rate limit still blocks both paths. -/
theorem submission_gate_witness :
    (true = true ∨ statusHealthy (some ⟨"healthy"⟩) = false ∨
      limitedFlag none = true) ∧
    (analyzeButtonDisabled true (some ⟨"healthy"⟩) none = true ∧
    enterKeySubmits "Enter" true (some ⟨"healthy"⟩) none = false) :=
  ⟨Or.inl rfl,
    submission_gate "Enter" true (some ⟨"healthy"⟩) none (Or.inl rfl)⟩

/-- JS truthiness of `data.seconds_remaining`: truthy iff the field is
present and non-zero. -/
def secondsTruthy : Option Nat → Bool
  | none => false
  | some n => n != 0

/-- Outcome of one checkRateLimit run: the rateLimit state it sets and
the countdown value after it (given the countdown value before it). -/
structure ProbeOutcome where
  rateLimit : RateLimitData
  countdown : Nat
deriving DecidableEq, Repr

/-- Result of the single /rate-limit fetch inside checkRateLimit: `ok`
carries the parsed JSON body; `failed` covers a rejected fetch or a body
that failed to parse as JSON, both of which reach the catch block. -/
inductive ProbeFetch
  | ok (data : RateLimitData)
  | failed (message : String)
deriving DecidableEq, Repr

/-- checkRateLimit (App.jsx lines 45-58) as a function of the fetch
result and the countdown value held before the probe: on success the
rateLimit state is replaced wholesale and the countdown is restarted only
when `is_limited` and `seconds_remaining` are both truthy; on failure the
state is set to the failing-open record and the countdown is untouched. -/
def checkRateLimit (fetch : ProbeFetch) (countdown0 : Nat) : ProbeOutcome :=
  match fetch with
  | .ok data =>
    ⟨data,
      if data.is_limited && secondsTruthy data.seconds_remaining then
        data.seconds_remaining.getD 0
      else countdown0⟩
  | .failed _ =>
    ⟨⟨false, some "Rate limit check unavailable", none⟩, countdown0⟩

/-- C6 counterexample: a probe whose result has is_limited false does not
cancel a running countdown — applied over a countdown of 5 seconds it
leaves secondsLeft at 5, not 0. -/
theorem unlimited_probe_keeps_countdown :
    (checkRateLimit (.ok ⟨false, none, none⟩) 5).countdown = 5 ∧
    (5 : Nat) ≠ 0 := by
  decide

/-- C6 amended: a probe (manual or automatic) whose result has isLimited
false replaces the rate-limit status wholesale but leaves the countdown
unchanged — it does not cancel it; only a result with isLimited true and
a non-zero secondsRemaining modifies the countdown. -/
theorem unlimited_probe_no_cancel (data : RateLimitData) (cd : Nat)
    (h : data.is_limited = false) :
    checkRateLimit (.ok data) cd = ⟨data, cd⟩ := by
  simp [checkRateLimit, h]

/-- Witness for unlimited_probe_no_cancel over a running countdown. -/
theorem unlimited_probe_no_cancel_witness :
    RateLimitData.is_limited ⟨false, some "ok", none⟩ = false ∧
    checkRateLimit (.ok ⟨false, some "ok", none⟩) 7 =
      ⟨⟨false, some "ok", none⟩, 7⟩ :=
  ⟨rfl, unlimited_probe_no_cancel ⟨false, some "ok", none⟩ 7 rfl⟩

/-- C9 counterexample: on transport failure the stored message is
"Rate limit check unavailable" (capital R), not the claimed exact record
with "rate limit check unavailable". -/
theorem probe_failure_message_capitalised :
    (checkRateLimit (.failed "network down") 0).rateLimit ≠
      ⟨false, some "rate limit check unavailable", none⟩ ∧
    (checkRateLimit (.failed "network down") 0).rateLimit =
      ⟨false, some "Rate limit check unavailable", none⟩ := by
  decide

/-- C9 amended: every failed probe (rejected fetch or non-JSON body)
results in exactly the status record with isLimited false and message
"Rate limit check unavailable" — capitalised as in the source — so a
failed probe never leaves the system in a limited state. -/
theorem probe_failure_fails_open (message : String) (cd : Nat) :
    checkRateLimit (.failed message) cd =
      ⟨⟨false, some "Rate limit check unavailable", none⟩, cd⟩ ∧
    (checkRateLimit (.failed message) cd).rateLimit.is_limited = false := by
  constructor <;> simp [checkRateLimit]

/-- One tick of the countdown interval callback (App.jsx lines 21-27),
the functional update passed to setCountdown: returns the next countdown
value and whether checkRateLimit was invoked on this tick. -/
def countdownTick (prev : Nat) : Nat × Bool :=
  if prev ≤ 1 then (0, true) else (prev - 1, false)

/-- Repeated ticking of the countdown (App.jsx lines 18-31): the interval
is scheduled only while countdown > 0 and fires once per elapsed second;
`fuel` bounds the number of seconds simulated. Returns the final
countdown value and the total number of automatic re-probes fired. -/
def runCountdown (fuel : Nat) (cd : Nat) : Nat × Nat :=
  match fuel with
  | 0 => (cd, 0)
  | f + 1 =>
    if cd = 0 then (cd, 0)
    else
      let t := countdownTick cd
      let r := runCountdown f t.1
      (r.1, (if t.2 then 1 else 0) + r.2)

/-- A countdown at zero never ticks and never fires a probe. -/
theorem runCountdown_zero (f : Nat) : runCountdown f 0 = (0, 0) := by
  cases f <;> simp [runCountdown]

/-- A countdown started at a positive value reaches 0 and fires exactly
one automatic re-probe, given at least that many seconds elapse. -/
theorem runCountdown_expires (n : Nat) :
    ∀ fuel, 0 < n → n ≤ fuel → runCountdown fuel n = (0, 1) := by
  induction n with
  | zero => intro fuel h _; omega
  | succ m ih =>
    intro fuel h1 h2
    cases fuel with
    | zero => omega
    | succ f =>
      by_cases hm : m = 0
      · subst hm
        simp [runCountdown, countdownTick, runCountdown_zero]
      · have hm1 : 0 < m := Nat.pos_of_ne_zero hm
        have hf : m ≤ f := by omega
        have hr := ih f hm1 hf
        simp [runCountdown, countdownTick, hm, hr]

/-- C7: while secondsLeft exceeds 1 each tick decrements it by exactly
one without probing; the tick that would drop below 1 instead resets to 0
and fires the re-probe; and a countdown started at n > 0 ends at 0 with
exactly one automatic re-probe fired over any horizon of at least n
seconds — never more than one per expiry. -/
theorem countdown_behaviour (n fuel cd : Nat)
    (h1 : 0 < n) (h2 : n ≤ fuel) (h3 : 1 < cd) :
    countdownTick cd = (cd - 1, false) ∧
    countdownTick 1 = (0, true) ∧
    runCountdown fuel n = (0, 1) := by
  refine ⟨?_, by decide, runCountdown_expires n fuel h1 h2⟩
  have hc : ¬ cd ≤ 1 := by omega
  simp [countdownTick, hc]

/-- Witness for countdown_behaviour: a countdown of 5 over 8 seconds, and
a tick at 3 seconds left. -/
theorem countdown_behaviour_witness :
    0 < 5 ∧ 5 ≤ 8 ∧ 1 < 3 ∧
    (countdownTick 3 = (3 - 1, false) ∧
    countdownTick 1 = (0, true) ∧
    runCountdown 8 5 = (0, 1)) :=
  ⟨by decide, by decide, by decide,
    countdown_behaviour 5 8 3 (by decide) (by decide) (by decide)⟩

end StockApp
